import Mathlib

/-!
Shallow embedding of the `rolling-forecast` repository core:

* `src/data/data.py`  — `calculate_daily_revenue_stream` (daily revenue
  reconstruction from booking records);
* `src/model/model.py` — `run_evaluation` (walk-forward sliding-window
  evaluation of a forecasting model);
* `src/cli/forecast.py` — `main` (the forecast pipeline: config check,
  artifact loading, window construction, prediction, report emission).

Dates are modelled as integers (days since an arbitrary epoch); monthly
periods as integer month indices (`12 * year + month - 1`).  Revenue and
rates are rationals.  Fallible Python operations (numpy `IndexError`,
`np.concatenate([])`, pandas frame-length mismatches) are modelled with
`Option`: `none` is an uncaught exception.
-/

/-! ## Data model: booking records (`data.py`) -/

/-- A booking record, the fields of `data.py`'s row accesses:
`is_canceled` (integer flag, compared with `== 1` and `== 0`),
`deposit_type` (string, compared with `"Non Refund"`),
`arrival_date` and `reservation_status_date` (days since epoch),
`adr` (average daily rate) and `total_nights` (length of stay). -/
structure Booking where
  is_canceled : Nat
  deposit_type : String
  arrival_date : Int
  reservation_status_date : Int
  adr : ℚ
  total_nights : Nat
deriving DecidableEq, Repr

/-- Add `v` to entry `i` of `l` (numpy `a[i] += v` after the index has been
normalised to a non-negative position; out-of-bounds `set` is a no-op but
callers only use it in bounds). -/
def bump (l : List ℚ) (i : Nat) (v : ℚ) : List ℚ :=
  l.set i (l.getD i 0 + v)

/-- numpy 1-D `a[j] += v` with Python index semantics: a non-negative `j`
must be `< len`, a negative `j` wraps to `len + j`; anything else is an
`IndexError` (`none`). -/
def npBump (a : List ℚ) (j : Int) (v : ℚ) : Option (List ℚ) :=
  if 0 ≤ j ∧ j < (a.length : Int) then some (bump a j.toNat v)
  else if -(a.length : Int) ≤ j ∧ j < 0 then some (bump a ((a.length : Int) + j).toNat v)
  else none

/-- The inner loop of the non-cancelled branch of
`calculate_daily_revenue_stream`:
`for step in range(total_nights): if idx + step > n_days - 1: break;
revenue_stream[idx + step] += adr`, with `j = idx + step` the current
absolute day offset and the first argument the remaining nights. -/
def addNights (n_days : Nat) (adr : ℚ) : Nat → Int → List ℚ → Option (List ℚ)
  | 0, _, a => some a
  | k + 1, j, a =>
    if j > (n_days : Int) - 1 then some a
    else
      match npBump a j adr with
      | none => none
      | some a2 => addNights n_days adr k (j + 1) a2

/-- One iteration of the booking loop of `calculate_daily_revenue_stream`:
the three mutually exclusive branches of `data.py` lines 64-78. -/
def processBooking (n_days : Nat) (start : Int) (a : List ℚ) (b : Booking) :
    Option (List ℚ) :=
  if b.is_canceled = 1 ∧ b.deposit_type = "Non Refund" then
    let idx := b.reservation_status_date - start
    if 0 ≤ idx ∧ idx < (n_days : Int) then
      some (bump a idx.toNat (b.adr * (b.total_nights : ℚ)))
    else some a
  else if b.is_canceled = 0 then
    addNights n_days b.adr b.total_nights (b.arrival_date - start) a
  else some a

/-- The booking loop of `calculate_daily_revenue_stream`, threading the
revenue array through `processBooking` and propagating an `IndexError`. -/
def calcStream (n_days : Nat) (start : Int) : List Booking → List ℚ → Option (List ℚ)
  | [], a => some a
  | b :: rest, a =>
    match processBooking n_days start a b with
    | none => none
    | some a2 => calcStream n_days start rest a2

/-- `calculate_daily_revenue_stream(data, n_days, start_date)` of `data.py`:
start from `np.zeros(n_days)` and fold the bookings through the branch
logic. -/
def calculate_daily_revenue_stream (data : List Booking) (n_days : Nat)
    (start_date : Int) : Option (List ℚ) :=
  calcStream n_days start_date data (List.replicate n_days 0)

/-! ## Walk-forward evaluator (`model.py`) -/

/-- One period of the evaluation data: the target-series value
(`series_column`) and the exogenous-column values of that row. -/
structure Row where
  target : ℚ
  exog : List ℚ
deriving DecidableEq, Repr

/-- Python `df[-n:]`: the last `n` rows — except that `-0` is `0`, so
`df[-0:]` is the whole frame. -/
def lastSlice (l : List Row) (n : Nat) : List Row :=
  if n = 0 then l else l.drop (l.length - n)

/-- `test_df = pd.concat([train[-n_lag:], valid])` of `run_evaluation`. -/
def evalFrame (train valid : List Row) (n_lag : Nat) : List Row :=
  lastSlice train n_lag ++ valid

/-- `test_df[i : i + n_lag][series_column]`: the model-input window. -/
def windowSlice (frame : List Row) (n_lag i : Nat) : List ℚ :=
  ((frame.drop i).take n_lag).map Row.target

/-- `test_df[i + n_lag : i + n_lag + n_steps][series_column]`: the held-out
observations the forecast is compared against. -/
def obsSlice (frame : List Row) (n_lag n_steps i : Nat) : List ℚ :=
  ((frame.drop (i + n_lag)).take n_steps).map Row.target

/-- The external forecasting model: `predict(steps, last_window, exog)`
returning the forecast values in period order. -/
abbrev EvalModel := Nat → List ℚ → List (List ℚ) → List ℚ

/-- `np.abs(forecast.values - observation.values)` on 1-D arrays: equal
lengths subtract elementwise, a length-1 side broadcasts, anything else
raises. -/
def npAbsSub (f o : List ℚ) : Option (List ℚ) :=
  if f.length = o.length then some (List.zipWith (fun x y => |x - y|) f o)
  else if f.length = 1 then some (o.map fun y => |f.headI - y|)
  else if o.length = 1 then some (f.map fun x => |x - o.headI|)
  else none

/-- `for i in range(n_tests)` of `run_evaluation`: the first argument is
the number of windows still to run, the second the current window start
`i`.  Each iteration slices window and observation, calls the model with
the whole frame as exogenous data, and records the forecast and its
absolute errors. -/
def evalLoop (frame : List Row) (model : EvalModel) (n_lag n_steps : Nat) :
    Nat → Nat → Option (List (List ℚ) × List (List ℚ))
  | 0, _ => some ([], [])
  | k + 1, i =>
    let forecast := model n_steps (windowSlice frame n_lag i) (frame.map Row.exog)
    match npAbsSub forecast (obsSlice frame n_lag n_steps i) with
    | none => none
    | some ae =>
      match evalLoop frame model n_lag n_steps k (i + 1) with
      | none => none
      | some (aes, preds) => some (ae :: aes, forecast :: preds)

/-- `np.concatenate(aes)`: concatenating an empty list of arrays raises. -/
def npConcat (l : List (List ℚ)) : Option (List ℚ) :=
  if l.isEmpty then none else some l.flatten

/-- `run_evaluation(train, valid, model, series_column, n_tests, n_lag,
n_steps, exog)` of `model.py`: build the evaluation frame, slide the
window `n_tests` times, and flatten the per-window absolute errors. -/
def run_evaluation (train valid : List Row) (model : EvalModel)
    (n_tests n_lag n_steps : Nat) : Option (List ℚ × List (List ℚ)) :=
  match evalLoop (evalFrame train valid n_lag) model n_lag n_steps n_tests 0 with
  | none => none
  | some (aes, preds) =>
    match npConcat aes with
    | none => none
    | some flat => some (flat, preds)

/-! ## Forecast pipeline (`cli/forecast.py` `main`) -/

/-- The four `params.yaml` keys `main` checks for; a `none` field is a
missing key.  `n_lags` is kept as an `Int` since the code only compares it
with `2` before using it as a period count. -/
structure ForecastParams where
  models_path : Option String
  exog_columns : Option (List String)
  n_steps : Option Nat
  n_lags : Option Int
deriving Repr

/-- The external forecaster: `predict(steps, last_window, exog)`. -/
abbrev PredictFn := Nat → List ℚ → List (List ℚ) → List ℚ

/-- The external spline transformer: one feature row per input month
number. -/
abbrev TransformFn := List Int → List (List ℚ)

/-- One logged report line of `main`: an `Actual` or `Forecast` pair of a
monthly period (as an absolute month index, `12 * year + month - 1`) and a
revenue value. -/
inductive Entry where
  | actual (period : Int) (value : ℚ)
  | fcast (period : Int) (value : ℚ)
deriving DecidableEq, Repr

/-- Observable outcome of one `main` run: whether a configuration error
was logged, whether `model.predict` was invoked, the emitted
actual/forecast report lines, and whether the run died with an uncaught
exception. -/
structure MainResult where
  configErrorLogged : Bool
  predictCalled : Bool
  report : List Entry
  crashed : Bool
deriving Repr

/-- `start_ts = pd.Timestamp(f"{year}-{month:02d}-01")` as an absolute
month index. -/
def fmStart (month year : Nat) : Int :=
  12 * (year : Int) + (month : Int) - 1

/-- `pd.date_range(start=start_ts - DateOffset(months=n_lags),
periods=n_lags, freq="M")`: the month-ends of the `n_lags` months before
the forecast start. -/
def lastWindowIdx (month year n_lags : Nat) : List Int :=
  (List.range n_lags).map (fun (i : Nat) => fmStart month year - (n_lags : Int) + (i : Int))

/-- `pd.date_range(start=start_ts, periods=n_steps, freq="M")`: the
month-ends of the `n_steps` forecast months. -/
def forecastIdx (month year n_steps : Nat) : List Int :=
  (List.range n_steps).map (fun (i : Nat) => fmStart month year + (i : Int))

/-- `foreacast_window["month_of_the_year"]`: calendar month numbers of the
forecast periods. -/
def fmMonthNums (month year n_steps : Nat) : List Int :=
  (forecastIdx month year n_steps).map (fun m => m.emod 12 + 1)

/-- The part of `main` after the artifacts have loaded.  Faithful to the
source: by this point an `n_lags != 2` error may already have been logged
(the source lacks a `return` after it), and the run then dies with an
uncaught pandas error whenever `n_lags ≠ 2` — `date_range` rejects a
negative period count, and the `last_window` DataFrame pairs the two
revenue values against an index of length `n_lags`.  The exogenous
DataFrame likewise raises if the transformer output shape disagrees with
the forecast index length or the configured column count. -/
def fmCore (month year : Nat) (revenue : ℚ × ℚ) (exogCols : List String)
    (n_steps : Nat) (n_lags : Int) (model : PredictFn)
    (transformer : TransformFn) : MainResult :=
  if n_lags < 0 then ⟨n_lags != 2, false, [], true⟩
  else if n_lags.toNat ≠ 2 then ⟨n_lags != 2, false, [], true⟩
  else if (transformer (fmMonthNums month year n_steps)).length ≠ n_steps ∨
      ∃ r ∈ transformer (fmMonthNums month year n_steps),
        r.length ≠ exogCols.length then ⟨n_lags != 2, false, [], true⟩
  else
    ⟨n_lags != 2, true,
      ((lastWindowIdx month year n_lags.toNat).zip [revenue.1, revenue.2]).map
        (fun p => Entry.actual p.1 p.2) ++
      ((forecastIdx month year n_steps).zip
        (model n_steps [revenue.1, revenue.2]
          (transformer (fmMonthNums month year n_steps)))).map
        (fun p => Entry.fcast p.1 p.2),
      false⟩

/-- `main(month, year, revenue, hotel)` of `cli/forecast.py`, with the
external artifacts passed as loaded-or-not collaborators: the
key-presence check (missing key: log and return), the `n_lags != 2` check
(log, NO return), artifact loading (failure: log and return), then
`fmCore`. -/
def forecast_main (month year : Nat) (revenue : ℚ × ℚ) (params : ForecastParams)
    (loadModel : Option PredictFn) (loadTransformer : Option TransformFn) :
    MainResult :=
  if params.models_path.isNone ∨ params.exog_columns.isNone ∨
      params.n_steps.isNone ∨ params.n_lags.isNone then
    ⟨true, false, [], false⟩
  else
    match loadModel with
    | none => ⟨params.n_lags.getD 0 != 2, false, [], false⟩
    | some model =>
      match loadTransformer with
      | none => ⟨params.n_lags.getD 0 != 2, false, [], false⟩
      | some transformer =>
        fmCore month year revenue (params.exog_columns.getD [])
          (params.n_steps.getD 0) (params.n_lags.getD 0) model transformer

/-- A booking lies entirely outside `[start, start + n_days)`: its arrival
day, each night of its stay, and its reservation-status day all fall
outside the range. -/
def outsideRange (b : Booking) (start : Int) (n_days : Nat) : Prop :=
  ¬(0 ≤ b.arrival_date - start ∧ b.arrival_date - start < (n_days : Int)) ∧
  (∀ s : Nat, s < b.total_nights →
    ¬(0 ≤ b.arrival_date + s - start ∧ b.arrival_date + s - start < (n_days : Int))) ∧
  ¬(0 ≤ b.reservation_status_date - start ∧
    b.reservation_status_date - start < (n_days : Int))

/-! ## Helper lemmas for the revenue stream -/

theorem bump_length (l : List ℚ) (i : Nat) (v : ℚ) : (bump l i v).length = l.length := by
  simp [bump]

theorem getD_bump (l : List ℚ) (i j : Nat) (v : ℚ) :
    (bump l i v).getD j 0 = if j = i ∧ i < l.length then l.getD j 0 + v else l.getD j 0 := by
  unfold bump
  rcases Nat.lt_or_ge i l.length with hi | hi
  · rcases eq_or_ne j i with rfl | hne
    · simp [List.getD_eq_getElem?_getD, List.getElem?_set_self, hi]
    · simp [List.getD_eq_getElem?_getD, List.getElem?_set_ne (Ne.symm hne), hne]
  · rw [List.set_eq_of_length_le hi]
    simp [Nat.not_lt.mpr hi]

theorem getD_replicate_zero (n j : Nat) : (List.replicate n (0 : ℚ)).getD j 0 = 0 := by
  rcases Nat.lt_or_ge j n with h | h
  · simp [List.getD_eq_getElem?_getD, List.getElem?_replicate, h]
  · simp [List.getD_eq_getElem?_getD, List.getElem?_replicate, Nat.not_lt.mpr h]

/-- Closed form of `addNights` when the starting day offset is non-negative:
no wrap-around is reachable, the run succeeds, and each index receives `adr`
exactly when it lies in the (forward-truncated) occupied band. -/
theorem addNights_pos (n_days : Nat) (adr : ℚ) :
    ∀ (k p : Nat) (a : List ℚ), a.length = n_days →
    ∃ a', addNights n_days adr k (p : Int) a = some a' ∧ a'.length = n_days ∧
      ∀ j : Nat, a'.getD j 0 = a.getD j 0 + (if p ≤ j ∧ j < p + k ∧ j < n_days then adr else 0)
  | 0, p, a, ha => by
    refine ⟨a, rfl, ha, fun j => ?_⟩
    have : ¬(p ≤ j ∧ j < p + 0 ∧ j < n_days) := by omega
    rw [if_neg this]; ring
  | k + 1, p, a, ha => by
    unfold addNights
    by_cases hp : (p : Int) > (n_days : Int) - 1
    · have hpn : n_days ≤ p := by exact_mod_cast by omega
      refine ⟨a, by simp [hp], ha, fun j => ?_⟩
      have : ¬(p ≤ j ∧ j < p + (k + 1) ∧ j < n_days) := by omega
      rw [if_neg this]; ring
    · have hpn : p < n_days := by omega
      have hbump : npBump a (p : Int) adr = some (bump a p adr) := by
        have h1 : (0 : Int) ≤ (p : Int) ∧ (p : Int) < (a.length : Int) := by
          constructor <;> omega
        simp [npBump, h1, Int.toNat_natCast]
      have hlen : (bump a p adr).length = n_days := by rw [bump_length]; exact ha
      obtain ⟨a', h1, h2, h3⟩ := addNights_pos n_days adr k (p + 1) (bump a p adr) hlen
      refine ⟨a', ?_, h2, fun j => ?_⟩
      · simp only [hp, if_false, hbump]
        rw [← h1]
        norm_num
      · rw [h3 j, getD_bump, ha]
        by_cases hj : j = p
        · subst hj
          have c1 : j = j ∧ j < n_days := ⟨rfl, hpn⟩
          have c2 : ¬(j + 1 ≤ j ∧ j < j + 1 + k ∧ j < n_days) := by omega
          have c3 : j ≤ j ∧ j < j + (k + 1) ∧ j < n_days := by omega
          rw [if_pos c1, if_neg c2, if_pos c3]; ring
        · have c1 : ¬(j = p ∧ p < n_days) := by tauto
          have c2 : (p + 1 ≤ j ∧ j < p + 1 + k ∧ j < n_days) ↔
              (p ≤ j ∧ j < p + (k + 1) ∧ j < n_days) := by omega
          by_cases hc : p ≤ j ∧ j < p + (k + 1) ∧ j < n_days
          · rw [if_neg c1, if_pos (c2.mpr hc), if_pos hc]
          · rw [if_neg c1, if_neg (fun h => hc (c2.mp h)), if_neg hc]

theorem sum_eq_sum_getD (l : List ℚ) : l.sum = ∑ j in Finset.range l.length, l.getD j 0 := by
  induction l with
  | nil => simp
  | cons x t ih =>
    rw [List.sum_cons, List.length_cons, Finset.sum_range_succ']
    simp only [List.getD_cons_succ, List.getD_cons_zero]
    rw [← ih]; ring

theorem sum_range_band (n p q : Nat) (R : ℚ) :
    ∑ j in Finset.range n, (if p ≤ j ∧ j < q then R else 0) = ((min q n - p : ℕ) : ℚ) * R := by
  induction n with
  | zero => simp
  | succ n ih =>
    rw [Finset.sum_range_succ, ih]
    by_cases h : p ≤ n ∧ n < q
    · rw [if_pos h]
      have h2 : min q (n + 1) - p = (min q n - p) + 1 := by omega
      rw [h2]; push_cast; ring
    · rw [if_neg h]
      have h2 : min q (n + 1) - p = min q n - p := by omega
      rw [h2]; ring

/-- A single-booking run is just `processBooking` on the zero array. -/
theorem calc_singleton (b : Booking) (n_days : Nat) (start : Int) :
    calculate_daily_revenue_stream [b] n_days start =
      processBooking n_days start (List.replicate n_days 0) b := by
  unfold calculate_daily_revenue_stream calcStream
  cases processBooking n_days start (List.replicate n_days 0) b <;> rfl

/-- C3: a single cancelled, non-refundable booking of rate `R` and length
`L` contributes `R * L` exactly at the offset `k` of its
`reservation_status_date` when `0 ≤ k < n_days`, and nothing anywhere when
`k` is out of range. -/
theorem claim_C3 (b : Booking) (n_days : Nat) (start : Int) (R : ℚ) (L : Nat)
    (hc : b.is_canceled = 1) (hd : b.deposit_type = "Non Refund")
    (hR : b.adr = R) (hL : b.total_nights = L) :
    (0 ≤ b.reservation_status_date - start ∧
        b.reservation_status_date - start < (n_days : Int) →
      ∃ l, calculate_daily_revenue_stream [b] n_days start = some l ∧
        l.length = n_days ∧
        l.getD (b.reservation_status_date - start).toNat 0 = R * L ∧
        ∀ j < n_days, j ≠ (b.reservation_status_date - start).toNat →
          l.getD j 0 = 0) ∧
    (¬(0 ≤ b.reservation_status_date - start ∧
        b.reservation_status_date - start < (n_days : Int)) →
      calculate_daily_revenue_stream [b] n_days start =
        some (List.replicate n_days 0)) := by
  have hguard : b.is_canceled = 1 ∧ b.deposit_type = "Non Refund" := ⟨hc, hd⟩
  constructor
  · intro hin
    set k := (b.reservation_status_date - start).toNat with hk
    have hkn : k < n_days := by omega
    refine ⟨bump (List.replicate n_days 0) k (R * (L : ℚ)), ?_, ?_, ?_, ?_⟩
    · rw [calc_singleton]
      simp only [processBooking, hguard, and_self, if_true, hin, hR, hL]
    · rw [bump_length, List.length_replicate]
    · rw [getD_bump]
      have : k = k ∧ k < (List.replicate n_days (0:ℚ)).length := by
        simp [List.length_replicate, hkn]
      rw [if_pos this, getD_replicate_zero, zero_add]
    · intro j hj hne
      rw [getD_bump, if_neg (fun h => hne h.1), getD_replicate_zero]
  · intro hout
    rw [calc_singleton]
    simp only [processBooking, hguard, and_self, if_true, hout, if_false]

/-- Witness for C3 at a concrete booking: cancelled, non-refundable, rate
50, three nights, status date at offset 2 of a 5-day range. -/
theorem claim_C3_witness :
    ∃ l, calculate_daily_revenue_stream [⟨1, "Non Refund", 0, 12, 50, 3⟩] 5 10 = some l ∧
      l.length = 5 ∧ l.getD 2 0 = 50 * 3 ∧ ∀ j < 5, j ≠ 2 → l.getD j 0 = 0 := by
  have h := (claim_C3 ⟨1, "Non Refund", 0, 12, 50, 3⟩ 5 10 50 3 rfl rfl rfl rfl).1
    (by norm_num)
  simpa using h

/-- The non-cancelled single-booking closed form at a non-negative arrival
offset `p`: the run succeeds and index `j` holds `R` exactly when
`p ≤ j < min (p + L) n_days`. -/
theorem single_noncancelled (b : Booking) (n_days : Nat) (start : Int) (R : ℚ) (L : Nat)
    (hc : b.is_canceled = 0) (hR : b.adr = R) (hL : b.total_nights = L)
    (hpos : 0 ≤ b.arrival_date - start) :
    ∃ l, calculate_daily_revenue_stream [b] n_days start = some l ∧
      l.length = n_days ∧
      ∀ j : Nat, l.getD j 0 =
        if (b.arrival_date - start).toNat ≤ j ∧
            j < (b.arrival_date - start).toNat + L ∧ j < n_days then R else 0 := by
  set p := (b.arrival_date - start).toNat with hp
  have hcast : b.arrival_date - start = (p : Int) := by omega
  obtain ⟨a', h1, h2, h3⟩ := addNights_pos n_days R L p (List.replicate n_days 0)
    (List.length_replicate n_days 0)
  refine ⟨a', ?_, h2, fun j => ?_⟩
  · rw [calc_singleton]
    have hnot : ¬(b.is_canceled = 1 ∧ b.deposit_type = "Non Refund") := by
      intro h; rw [hc] at h; exact absurd h.1 (by norm_num)
    simp only [processBooking, hnot, if_false, hc, if_true, hR, hL, hcast]
    exact h1
  · rw [h3 j, getD_replicate_zero, zero_add]

/-- C4: a single non-cancelled booking fully inside the range receives `R`
on each of its `L` nights starting at the arrival offset, and the output
sums to `R * L`. -/
theorem claim_C4 (b : Booking) (n_days : Nat) (start : Int) (R : ℚ) (L : Nat)
    (hc : b.is_canceled = 0) (hR : b.adr = R) (hL : b.total_nights = L)
    (hpos : 0 ≤ b.arrival_date - start)
    (hin : (b.arrival_date - start).toNat + L ≤ n_days) :
    ∃ l, calculate_daily_revenue_stream [b] n_days start = some l ∧
      l.length = n_days ∧
      (∀ j < n_days, l.getD j 0 =
        if (b.arrival_date - start).toNat ≤ j ∧
            j < (b.arrival_date - start).toNat + L then R else 0) ∧
      l.sum = R * L := by
  set p := (b.arrival_date - start).toNat with hp
  obtain ⟨l, h1, h2, h3⟩ := single_noncancelled b n_days start R L hc hR hL hpos
  have hpoint : ∀ j < n_days, l.getD j 0 = if p ≤ j ∧ j < p + L then R else 0 := by
    intro j hj
    rw [h3 j]
    by_cases hb : p ≤ j ∧ j < p + L
    · rw [if_pos ⟨hb.1, hb.2, hj⟩, if_pos hb]
    · rw [if_neg (fun h => hb ⟨h.1, h.2.1⟩), if_neg hb]
  refine ⟨l, h1, h2, hpoint, ?_⟩
  rw [sum_eq_sum_getD, h2]
  rw [Finset.sum_congr rfl (fun j hj => hpoint j (Finset.mem_range.mp hj))]
  rw [sum_range_band]
  have : min (p + L) n_days - p = L := by omega
  rw [this, mul_comm]

/-- C5: a single non-cancelled booking at a non-negative arrival offset
whose stay overruns the range end is forward-truncated: every in-range
night from the arrival offset on holds `R`, the total is
`R * (n_days - offset)`, strictly less than `R * L`. -/
theorem claim_C5 (b : Booking) (n_days : Nat) (start : Int) (R : ℚ) (L : Nat)
    (hc : b.is_canceled = 0) (hR : b.adr = R) (hL : b.total_nights = L)
    (hpos : 0 ≤ b.arrival_date - start)
    (hover : (n_days : Int) < b.arrival_date - start + L)
    (hRpos : 0 < R) (hLpos : 0 < L) :
    ∃ l, calculate_daily_revenue_stream [b] n_days start = some l ∧
      l.length = n_days ∧
      (∀ j < n_days, l.getD j 0 =
        if (b.arrival_date - start).toNat ≤ j then R else 0) ∧
      l.sum = R * ((n_days - (b.arrival_date - start).toNat : ℕ) : ℚ) ∧
      l.sum < R * L := by
  set p := (b.arrival_date - start).toNat with hp
  have hovn : n_days < p + L := by omega
  obtain ⟨l, h1, h2, h3⟩ := single_noncancelled b n_days start R L hc hR hL hpos
  have hpoint : ∀ j < n_days, l.getD j 0 = if p ≤ j then R else 0 := by
    intro j hj
    rw [h3 j]
    by_cases hb : p ≤ j
    · rw [if_pos ⟨hb, by omega, hj⟩, if_pos hb]
    · rw [if_neg (fun h => hb h.1), if_neg hb]
  have hsum : l.sum = R * ((n_days - p : ℕ) : ℚ) := by
    rw [sum_eq_sum_getD, h2]
    have hcongr : ∀ j ∈ Finset.range n_days,
        l.getD j 0 = if p ≤ j ∧ j < p + L then R else 0 := by
      intro j hj
      have hjn := Finset.mem_range.mp hj
      rw [hpoint j hjn]
      by_cases hb : p ≤ j
      · rw [if_pos hb, if_pos ⟨hb, by omega⟩]
      · rw [if_neg hb, if_neg (fun h => hb h.1)]
    rw [Finset.sum_congr rfl hcongr, sum_range_band]
    have : min (p + L) n_days = n_days := by omega
    rw [this, mul_comm]
  refine ⟨l, h1, h2, hpoint, hsum, ?_⟩
  rw [hsum]
  have hn : n_days - p < L := by omega
  have hlt : ((n_days - p : ℕ) : ℚ) < (L : ℚ) := by exact_mod_cast hn
  exact mul_lt_mul_of_pos_left hlt hRpos

/-- Witness for C4: three-night stay at offset 1 of a 5-day range. -/
theorem claim_C4_witness :
    ∃ l, calculate_daily_revenue_stream [⟨0, "No Deposit", 11, 11, 7, 3⟩] 5 10 = some l ∧
      l.length = 5 ∧
      (∀ j < 5, l.getD j 0 = if 1 ≤ j ∧ j < 1 + 3 then 7 else 0) ∧
      l.sum = 7 * 3 := by
  have h := claim_C4 ⟨0, "No Deposit", 11, 11, 7, 3⟩ 5 10 7 3 rfl rfl rfl
    (by decide) (by decide)
  simpa using h

/-- Witness for C5: five-night stay at offset 3 of a 5-day range, rate 7:
only two nights are counted, `14 < 35`. -/
theorem claim_C5_witness :
    ∃ l, calculate_daily_revenue_stream [⟨0, "No Deposit", 13, 13, 7, 5⟩] 5 10 = some l ∧
      l.length = 5 ∧
      (∀ j < 5, l.getD j 0 = if 3 ≤ j then 7 else 0) ∧
      l.sum = 7 * 2 ∧ l.sum < 7 * 5 := by
  have h := claim_C5 ⟨0, "No Deposit", 13, 13, 7, 5⟩ 5 10 7 5 rfl rfl rfl
    (by decide) (by decide) (by norm_num) (by decide)
  simpa using h

/-- C2 fails on the code: a one-night, non-cancelled booking the day before
the range starts lies entirely outside the range, yet changes the output —
numpy wrap-around puts its rate on the last index. -/
theorem claim_C2_counterexample :
    outsideRange ⟨0, "No Deposit", 9, 9, 100, 1⟩ 10 2 ∧
    calculate_daily_revenue_stream [⟨0, "No Deposit", 9, 9, 100, 1⟩] 2 10 ≠
      calculate_daily_revenue_stream [] 2 10 := by
  constructor
  · refine ⟨by norm_num, fun s hs => ?_, by norm_num⟩
    dsimp only at hs ⊢
    omega
  · have hLhs : calculate_daily_revenue_stream [⟨0, "No Deposit", 9, 9, 100, 1⟩] 2 10 =
        some [0, 100] := by
      norm_num [calculate_daily_revenue_stream, calcStream, processBooking, addNights,
        npBump, bump, List.replicate]
    have hRhs : calculate_daily_revenue_stream [] 2 10 = some [(0 : ℚ), 0] := by
      simp [calculate_daily_revenue_stream, calcStream, List.replicate]
    rw [hLhs, hRhs]
    simp

theorem calcStream_cons (n_days : Nat) (start : Int) (b : Booking)
    (rest : List Booking) (a : List ℚ) :
    calcStream n_days start (b :: rest) a =
      (processBooking n_days start a b).bind (calcStream n_days start rest) := by
  cases h : processBooking n_days start a b <;> simp [calcStream, h]

theorem calcStream_append (n_days : Nat) (start : Int) (xs ys : List Booking) :
    ∀ a, calcStream n_days start (xs ++ ys) a =
      (calcStream n_days start xs a).bind (calcStream n_days start ys) := by
  induction xs with
  | nil => intro a; rfl
  | cons b t ih =>
    intro a
    rw [List.cons_append, calcStream_cons, calcStream_cons, Option.bind_assoc]
    exact Option.bind_congr fun a2 _ => ih a2

/-- A booking that is cancelled, or out of stock of nights, or whose
arrival offset is at or past the range end, and whose status date is out
of range, leaves any revenue array unchanged. -/
theorem processBooking_noop (b : Booking) (n_days : Nat) (start : Int) (a : List ℚ)
    (hst : ¬(0 ≤ b.reservation_status_date - start ∧
        b.reservation_status_date - start < (n_days : Int)))
    (hside : b.is_canceled ≠ 0 ∨ (n_days : Int) ≤ b.arrival_date - start ∨
      b.total_nights = 0) :
    processBooking n_days start a b = some a := by
  unfold processBooking
  by_cases h1 : b.is_canceled = 1 ∧ b.deposit_type = "Non Refund"
  · rw [if_pos h1, if_neg hst]
  · rw [if_neg h1]
    by_cases h2 : b.is_canceled = 0
    · rw [if_pos h2]
      rcases hside with hcanc | harr | hnights
      · exact absurd h2 hcanc
      · cases hL : b.total_nights with
        | zero => rfl
        | succ m =>
          unfold addNights
          rw [if_pos (by omega)]
      · rw [hnights]; rfl
    · rw [if_neg h2]

/-- C2 amended: a booking entirely outside the range contributes nothing —
provided it is cancelled, or starts at or after the range end, or has no
nights.  (A non-cancelled stay entirely before the range is the numpy
wrap-around counterexample.) -/
theorem claim_C2_amended (l1 l2 : List Booking) (b : Booking) (n_days : Nat)
    (start : Int) (hout : outsideRange b start n_days)
    (hside : b.is_canceled ≠ 0 ∨ (n_days : Int) ≤ b.arrival_date - start ∨
      b.total_nights = 0) :
    calculate_daily_revenue_stream (l1 ++ b :: l2) n_days start =
      calculate_daily_revenue_stream (l1 ++ l2) n_days start := by
  unfold calculate_daily_revenue_stream
  rw [calcStream_append, calcStream_append]
  refine Option.bind_congr fun a _ => ?_
  rw [calcStream_cons, processBooking_noop b n_days start a hout.2.2 hside]
  rfl

/-- Witness for the amended C2: a cancelled non-refundable booking with
status date before the range leaves the output unchanged. -/
theorem claim_C2_witness :
    outsideRange ⟨1, "Non Refund", 9, 9, 100, 1⟩ 10 2 ∧
    calculate_daily_revenue_stream [⟨1, "Non Refund", 9, 9, 100, 1⟩] 2 10 =
      calculate_daily_revenue_stream [] 2 10 := by
  have hout : outsideRange ⟨1, "Non Refund", 9, 9, 100, 1⟩ 10 2 := by
    refine ⟨by norm_num, fun s hs => ?_, by norm_num⟩
    dsimp only at hs ⊢
    omega
  exact ⟨hout, claim_C2_amended [] [] ⟨1, "Non Refund", 9, 9, 100, 1⟩ 2 10 hout
    (Or.inl (by norm_num))⟩

/-- C5 fails as stated for a negative arrival offset: booking
(non-cancelled, arrival offset `-1`, rate `1`, `4` nights) over a 2-day
range has `offset + L = 3 > 2`, and its in-range nights are offsets `0`
and `1`, so attributing revenue only to in-range nights would give
`[1, 1]`; the code wraps the night at offset `-1` onto index `1` and
returns `[1, 2]`. -/
theorem claim_C5_counterexample :
    ((-1 : Int) - 0 + (4 : Nat) > (2 : Nat)) ∧
    calculate_daily_revenue_stream [⟨0, "No Deposit", -1, -1, 1, 4⟩] 2 0 =
      some [1, 2] ∧
    some [(1 : ℚ), 2] ≠ some [(1 : ℚ), 1] := by
  refine ⟨by norm_num, ?_, by norm_num⟩
  norm_num [calculate_daily_revenue_stream, calcStream, processBooking, addNights,
    npBump, bump, List.replicate]

/-- C10: with `n_tests = 0` the window loop never runs and
`np.concatenate([])` raises, so `run_evaluation` fails instead of
returning `([], [])`. -/
theorem claim_C10 (train valid : List Row) (model : EvalModel) (n_lag n_steps : Nat) :
    run_evaluation train valid model 0 n_lag n_steps = none := rfl

/-- C6: the evaluation frame is the last `n_lag` rows of `train` followed
by `valid`; with `n_lag = 2, n_steps = 1, n_tests = 1`, frame target values
`[100, 150, 180]` and a model answering `160` to the window `[100, 150]`,
the returned absolute errors are `[20]` and the forecasts `[[160]]`. -/
theorem claim_C6 :
    (evalFrame [⟨100, []⟩, ⟨150, []⟩] [⟨180, []⟩] 2).map Row.target = [100, 150, 180] ∧
    run_evaluation [⟨100, []⟩, ⟨150, []⟩] [⟨180, []⟩]
      (fun steps w _ => if w = [100, 150] then [160] else List.replicate steps 0) 1 2 1 =
      some ([20], [[160]]) := by
  constructor
  · norm_num [evalFrame, lastSlice]
  · norm_num [run_evaluation, evalFrame, lastSlice, evalLoop, windowSlice, obsSlice,
      npAbsSub, npConcat]

theorem obsSlice_length (frame : List Row) (n_lag n_steps i : Nat)
    (h : i + n_lag + n_steps ≤ frame.length) :
    (obsSlice frame n_lag n_steps i).length = n_steps := by
  simp [obsSlice]
  omega

theorem evalLoop_closed (frame : List Row) (model : EvalModel) (n_lag n_steps : Nat)
    (hm : ∀ w e, (model n_steps w e).length = n_steps) :
    ∀ (k i : Nat), i + k + n_lag + n_steps ≤ frame.length + 1 →
    evalLoop frame model n_lag n_steps k i =
      some ((List.range k).map (fun t =>
              List.zipWith (fun x y => |x - y|)
                (model n_steps (windowSlice frame n_lag (i + t)) (frame.map Row.exog))
                (obsSlice frame n_lag n_steps (i + t))),
            (List.range k).map (fun t =>
              model n_steps (windowSlice frame n_lag (i + t)) (frame.map Row.exog)))
  | 0, i, _ => by simp [evalLoop]
  | k + 1, i, h => by
    have hobs : (obsSlice frame n_lag n_steps i).length = n_steps :=
      obsSlice_length frame n_lag n_steps i (by omega)
    have hsub : npAbsSub (model n_steps (windowSlice frame n_lag i) (frame.map Row.exog))
        (obsSlice frame n_lag n_steps i) =
        some (List.zipWith (fun x y => |x - y|)
          (model n_steps (windowSlice frame n_lag i) (frame.map Row.exog))
          (obsSlice frame n_lag n_steps i)) := by
      rw [npAbsSub, if_pos]
      rw [hm, hobs]
    have ih := evalLoop_closed frame model n_lag n_steps hm k (i + 1) (by omega)
    unfold evalLoop
    simp only [hsub, ih, List.range_succ_eq_map, List.map_cons, List.map_map,
      Function.comp_def, Nat.add_zero]
    simp only [Option.some.injEq, Prod.mk.injEq, List.cons.injEq, true_and]
    refine ⟨?_, ?_⟩ <;>
      exact List.map_congr_left fun t ht => by
        rw [show i + t.succ = i + 1 + t from by omega]

/-- C7 (amended with `1 ≤ n_tests`): when the evaluation frame has at
least `n_tests + n_lag + n_steps - 1` rows and the model always returns
`n_steps` values, `run_evaluation` succeeds with `absolute_errors` the
window-major step-minor flattening of the per-window error lists — of
length exactly `n_tests * n_steps` — and `n_tests` forecasts of `n_steps`
values each. -/
theorem claim_C7 (train valid : List Row) (model : EvalModel)
    (n_tests n_lag n_steps : Nat) (hpos : 1 ≤ n_tests)
    (hlen : n_tests + n_lag + n_steps ≤ (evalFrame train valid n_lag).length + 1)
    (hm : ∀ w e, (model n_steps w e).length = n_steps) :
    ∃ aes preds, run_evaluation train valid model n_tests n_lag n_steps = some (aes, preds) ∧
      aes = ((List.range n_tests).map (fun t =>
        List.zipWith (fun x y => |x - y|)
          (model n_steps (windowSlice (evalFrame train valid n_lag) n_lag t)
            ((evalFrame train valid n_lag).map Row.exog))
          (obsSlice (evalFrame train valid n_lag) n_lag n_steps t))).flatten ∧
      aes.length = n_tests * n_steps ∧
      preds.length = n_tests ∧
      ∀ p ∈ preds, p.length = n_steps := by
  set frame := evalFrame train valid n_lag with hf
  have hloop := evalLoop_closed frame model n_lag n_steps hm n_tests 0 (by omega)
  simp only [Nat.zero_add] at hloop
  set aeF : Nat → List ℚ := fun t =>
    List.zipWith (fun x y => |x - y|)
      (model n_steps (windowSlice frame n_lag t) (frame.map Row.exog))
      (obsSlice frame n_lag n_steps t) with haeF
  have hnonempty : ¬((List.range n_tests).map aeF).isEmpty = true := by
    simp [List.isEmpty_iff, List.range_eq_nil]
    omega
  have hconcat : npConcat ((List.range n_tests).map aeF) =
      some ((List.range n_tests).map aeF).flatten := by
    rw [npConcat, if_neg hnonempty]
  refine ⟨((List.range n_tests).map aeF).flatten,
    (List.range n_tests).map (fun t =>
      model n_steps (windowSlice frame n_lag t) (frame.map Row.exog)), ?_, rfl, ?_, ?_, ?_⟩
  · rw [run_evaluation, ← hf, hloop]
    simp only [hconcat]
  · rw [List.length_flatten]
    have hmap : ((List.range n_tests).map aeF).map List.length =
        List.replicate n_tests n_steps := by
      rw [List.map_map]
      have : ∀ t ∈ List.range n_tests, (List.length ∘ aeF) t = n_steps := by
        intro t ht
        have htn := List.mem_range.mp ht
        simp only [Function.comp, haeF, List.length_zipWith, hm]
        rw [obsSlice_length frame n_lag n_steps t (by omega), min_self]
      rw [List.map_congr_left this, List.map_const', List.length_range]
    rw [hmap, List.sum_replicate, smul_eq_mul]
  · rw [List.length_map, List.length_range]
  · intro p hp
    obtain ⟨t, ht, rfl⟩ := List.mem_map.mp hp
    exact hm _ _

/-- C7 fails as stated at `n_tests = 0`: the stated preconditions hold
(frame long enough, model output length right) yet `run_evaluation`
returns nothing at all — `np.concatenate([])` raises — rather than empty
error and forecast lists. -/
theorem claim_C7_counterexample :
    (0 + 1 + 1 ≤ (evalFrame [⟨0, []⟩] [] 1).length + 1) ∧
    (∀ w e, ((fun (s : Nat) (_ : List ℚ) (_ : List (List ℚ)) =>
      List.replicate s (0 : ℚ)) 1 w e).length = 1) ∧
    ¬∃ aes preds, run_evaluation [⟨0, []⟩] []
      (fun s _ _ => List.replicate s 0) 0 1 1 = some (aes, preds) := by
  refine ⟨by norm_num [evalFrame, lastSlice], fun w e => by simp, ?_⟩
  rintro ⟨aes, preds, h⟩
  simp [run_evaluation, evalLoop, npConcat] at h

/-- C8: the evaluator is deterministic — two runs on identical inputs
with models that answer identically give identical
`(absolute_errors, forecasts)`; the evaluator itself introduces no
randomness or hidden state. -/
theorem claim_C8 (train valid : List Row) (m1 m2 : EvalModel)
    (n_tests n_lag n_steps : Nat) (h : ∀ s w e, m1 s w e = m2 s w e) :
    run_evaluation train valid m1 n_tests n_lag n_steps =
      run_evaluation train valid m2 n_tests n_lag n_steps := by
  have hm : m1 = m2 := funext fun s => funext fun w => funext fun e => h s w e
  rw [hm]

/-- Witness for C7 at the concrete C6-style inputs with a constant-zero
model. -/
theorem claim_C7_witness :
    ∃ aes preds, run_evaluation [⟨100, []⟩, ⟨150, []⟩] [⟨180, []⟩]
        (fun s _ _ => List.replicate s 0) 1 2 1 = some (aes, preds) ∧
      aes = ((List.range 1).map (fun t =>
        List.zipWith (fun x y => |x - y|)
          ((fun (s : Nat) (_ : List ℚ) (_ : List (List ℚ)) => List.replicate s (0 : ℚ)) 1
            (windowSlice (evalFrame [⟨100, []⟩, ⟨150, []⟩] [⟨180, []⟩] 2) 2 t)
            ((evalFrame [⟨100, []⟩, ⟨150, []⟩] [⟨180, []⟩] 2).map Row.exog))
          (obsSlice (evalFrame [⟨100, []⟩, ⟨150, []⟩] [⟨180, []⟩] 2) 2 1 t))).flatten ∧
      aes.length = 1 * 1 ∧ preds.length = 1 ∧ ∀ p ∈ preds, p.length = 1 :=
  claim_C7 _ _ _ 1 2 1 (by norm_num) (by norm_num [evalFrame, lastSlice])
    (fun w e => by simp)

/-- Witness for C8 at a concrete deterministic model. -/
theorem claim_C8_witness :
    run_evaluation [⟨1, []⟩] [⟨2, []⟩] (fun s _ _ => List.replicate s 0) 1 1 1 =
      run_evaluation [⟨1, []⟩] [⟨2, []⟩] (fun s _ _ => List.replicate s 0) 1 1 1 :=
  claim_C8 _ _ _ _ 1 1 1 (fun _ _ _ => rfl)

theorem fmCore_nlags_ne_two (month year : Nat) (revenue : ℚ × ℚ)
    (exogCols : List String) (n_steps : Nat) (n_lags : Int) (model : PredictFn)
    (transformer : TransformFn) (h : n_lags ≠ 2) :
    fmCore month year revenue exogCols n_steps n_lags model transformer =
      ⟨true, false, [], true⟩ := by
  unfold fmCore
  have herr : (n_lags != 2) = true := bne_iff_ne.mpr h
  by_cases hneg : n_lags < 0
  · rw [if_pos hneg, herr]
  · rw [if_neg hneg, if_pos (by omega : n_lags.toNat ≠ 2), herr]

/-- C1: whenever the configuration carries `n_lags ≠ 2`, `main` logs a
configuration error and never reaches `model.predict`, emitting no
actual/forecast report lines — whatever the other inputs and however
artifact loading goes.  (The source lacks a `return` after the error log;
the run instead dies constructing the two-value `last_window` frame over
an index of length `n_lags`, still before any predict call.) -/
theorem claim_C1 (month year : Nat) (revenue : ℚ × ℚ) (params : ForecastParams)
    (loadModel : Option PredictFn) (loadTransformer : Option TransformFn)
    (k : Int) (hk : params.n_lags = some k) (hk2 : k ≠ 2) :
    (forecast_main month year revenue params loadModel loadTransformer).configErrorLogged
        = true ∧
    (forecast_main month year revenue params loadModel loadTransformer).predictCalled
        = false ∧
    (forecast_main month year revenue params loadModel loadTransformer).report = [] := by
  unfold forecast_main
  by_cases h1 : params.models_path.isNone ∨ params.exog_columns.isNone ∨
      params.n_steps.isNone ∨ params.n_lags.isNone
  · rw [if_pos h1]; exact ⟨rfl, rfl, rfl⟩
  · rw [if_neg h1]
    have hlag : params.n_lags.getD 0 = k := by rw [hk]; rfl
    have herr : (params.n_lags.getD 0 != 2) = true := by
      rw [hlag]; exact bne_iff_ne.mpr hk2
    cases loadModel with
    | none => simp [herr]
    | some model =>
      cases loadTransformer with
      | none => simp [herr]
      | some transformer =>
        rw [hlag]
        simp only [fmCore_nlags_ne_two month year revenue (params.exog_columns.getD [])
          (params.n_steps.getD 0) k model transformer hk2]
        exact ⟨trivial, trivial, trivial⟩

/-- Witness for C1 at `n_lags = 3` with loadable artifacts. -/
theorem claim_C1_witness :
    (forecast_main 2 2023 (0, 0) ⟨some "m", some [], some 6, some 3⟩
      (some (fun s _ _ => List.replicate s 0))
      (some (fun l => l.map (fun _ => [])))).configErrorLogged = true ∧
    (forecast_main 2 2023 (0, 0) ⟨some "m", some [], some 6, some 3⟩
      (some (fun s _ _ => List.replicate s 0))
      (some (fun l => l.map (fun _ => [])))).predictCalled = false ∧
    (forecast_main 2 2023 (0, 0) ⟨some "m", some [], some 6, some 3⟩
      (some (fun s _ _ => List.replicate s 0))
      (some (fun l => l.map (fun _ => [])))).report = [] :=
  claim_C1 2 2023 (0, 0) _ _ _ 3 rfl (by norm_num)

/-- C9: `run_forecast` for `start_month = 2, start_year = 2023`,
`recent_actuals = (180000, 200000)`, `n_lags = 2`, `n_steps = 6` reports
the two actuals for 2022-12 and 2023-01 followed by six forecast entries
for the chronologically increasing months 2023-02 .. 2023-07.  Periods are
absolute month indices: `24275 = 12*2022+11` is 2022-12, `24276` is
2023-01, and `24277 .. 24282` are 2023-02 .. 2023-07. -/
theorem claim_C9 (path : String) (cols : List String) (model : PredictFn)
    (transformer : TransformFn)
    (htlen : ∀ input, (transformer input).length = input.length)
    (htwid : ∀ input, ∀ r ∈ transformer input, r.length = cols.length)
    (hm : ∀ w e, (model 6 w e).length = 6) :
    ∃ vals : List ℚ, vals.length = 6 ∧
      (forecast_main 2 2023 (180000, 200000) ⟨some path, some cols, some 6, some 2⟩
        (some model) (some transformer)).report =
        [Entry.actual 24275 180000, Entry.actual 24276 200000] ++
        ([(24277 : Int), 24278, 24279, 24280, 24281, 24282].zip vals).map
          (fun p => Entry.fcast p.1 p.2) ∧
      (forecast_main 2 2023 (180000, 200000) ⟨some path, some cols, some 6, some 2⟩
        (some model) (some transformer)).predictCalled = true ∧
      (forecast_main 2 2023 (180000, 200000) ⟨some path, some cols, some 6, some 2⟩
        (some model) (some transformer)).crashed = false := by
  have hmain : forecast_main 2 2023 (180000, 200000)
      ⟨some path, some cols, some 6, some 2⟩ (some model) (some transformer) =
      fmCore 2 2023 (180000, 200000) cols 6 2 model transformer := by
    unfold forecast_main
    norm_num
  have hmn : (fmMonthNums 2 2023 6).length = 6 := by decide
  have hshape : ¬((transformer (fmMonthNums 2 2023 6)).length ≠ 6 ∨
      ∃ r ∈ transformer (fmMonthNums 2 2023 6), r.length ≠ cols.length) := by
    push_neg
    exact ⟨by rw [htlen, hmn], fun r hr => htwid _ r hr⟩
  have hcore : fmCore 2 2023 (180000, 200000) cols 6 2 model transformer =
      ⟨(2 : Int) != 2, true,
        ((lastWindowIdx 2 2023 (2 : Int).toNat).zip
          [(180000 : ℚ), 200000]).map (fun p => Entry.actual p.1 p.2) ++
        ((forecastIdx 2 2023 6).zip
          (model 6 [(180000 : ℚ), 200000]
            (transformer (fmMonthNums 2 2023 6)))).map
          (fun p => Entry.fcast p.1 p.2),
        false⟩ := by
    unfold fmCore
    rw [if_neg (by norm_num : ¬(2 : Int) < 0),
      if_neg (by decide : ¬(2 : Int).toNat ≠ 2), if_neg hshape]
  have hlw : lastWindowIdx 2 2023 2 = [24275, 24276] := by decide
  have hfc : forecastIdx 2 2023 6 = [24277, 24278, 24279, 24280, 24281, 24282] := by
    decide
  refine ⟨model 6 [(180000 : ℚ), 200000] (transformer (fmMonthNums 2 2023 6)),
    hm _ _, ?_, ?_, ?_⟩ <;>
    (rw [hmain, hcore]; try simp [hlw, hfc])

/-- Witness for C9 with a constant-zero model and a one-column
transformer. -/
theorem claim_C9_witness :
    ∃ vals : List ℚ, vals.length = 6 ∧
      (forecast_main 2 2023 (180000, 200000) ⟨some "m", some ["a"], some 6, some 2⟩
        (some (fun s _ _ => List.replicate s 0))
        (some (fun l => l.map (fun _ => [0])))).report =
        [Entry.actual 24275 180000, Entry.actual 24276 200000] ++
        ([(24277 : Int), 24278, 24279, 24280, 24281, 24282].zip vals).map
          (fun p => Entry.fcast p.1 p.2) ∧
      (forecast_main 2 2023 (180000, 200000) ⟨some "m", some ["a"], some 6, some 2⟩
        (some (fun s _ _ => List.replicate s 0))
        (some (fun l => l.map (fun _ => [0])))).predictCalled = true ∧
      (forecast_main 2 2023 (180000, 200000) ⟨some "m", some ["a"], some 6, some 2⟩
        (some (fun s _ _ => List.replicate s 0))
        (some (fun l => l.map (fun _ => [0])))).crashed = false :=
  claim_C9 "m" ["a"] _ _ (fun input => by simp)
    (fun input r hr => by
      obtain ⟨x, _, rfl⟩ := List.mem_map.mp hr
      rfl)
    (fun w e => by simp)
